import Mathlib

/-!
# Verification of the rachio_local watering-state reconciler and adaptive poller

Shallow embedding of the state-and-reconciliation logic of
`custom_components/rachio_local/controller.py`,
`custom_components/rachio_local/smart_hose_timer.py` and
`custom_components/rachio_local/utils.py`.

Modelling conventions:
* All clocks (`time.time()`, `datetime.now()`) are a single timeline of
  natural-number seconds.
* Python dicts keyed by id strings are association lists
  (`List (String × α)`) with last-write-wins insertion (`minsert`).
* Rate-limit header values, which the source stores as strings and parses
  with `int(...)` / `email.utils.parsedate_to_datetime`, are modelled as
  already-parsed numbers (`Option Nat`); an absent header is `none`.
* HTTP requests themselves are external: each `async_*` operation is
  embedded as the state transition its success path performs, and
  `async_update` as a function of the (optional) decoded responses.
-/

/-! ## Association-list maps (model of Python `dict`) -/

/-- Dictionary lookup: first binding of the key wins. -/
def mlookup {α : Type} : List (String × α) → String → Option α
  | [], _ => none
  | p :: t, k => if p.1 = k then some p.2 else mlookup t k

/-- Dictionary deletion (`dict.pop(k, None)` / `del d[k]`). -/
def merase {α : Type} : List (String × α) → String → List (String × α)
  | [], _ => []
  | p :: t, k => if p.1 = k then merase t k else p :: merase t k

/-- Dictionary insertion / overwrite (`d[k] = v`). -/
def minsert {α : Type} (m : List (String × α)) (k : String) (v : α) :
    List (String × α) :=
  (k, v) :: merase m k

/-- Key membership (`k in d`). -/
def mmem {α : Type} (m : List (String × α)) (k : String) : Bool :=
  (mlookup m k).isSome

/-- The list of keys (`d.keys()`). -/
def mkeys {α : Type} (m : List (String × α)) : List String :=
  m.map Prod.fst

@[simp] theorem mlookup_nil {α : Type} (k : String) :
    mlookup ([] : List (String × α)) k = none := rfl

@[simp] theorem mlookup_merase_self {α : Type} (m : List (String × α)) (k : String) :
    mlookup (merase m k) k = none := by
  induction m with
  | nil => rfl
  | cons p t ih =>
    by_cases h : p.1 = k
    · simpa [merase, h] using ih
    · simp [merase, mlookup, h, ih]

theorem mlookup_merase_ne {α : Type} (m : List (String × α)) {k q : String}
    (h : q ≠ k) : mlookup (merase m k) q = mlookup m q := by
  induction m with
  | nil => rfl
  | cons p t ih =>
    by_cases hp : p.1 = k
    · have hkq : k ≠ q := fun hk => h hk.symm
      simp [merase, mlookup, hp, hkq, ih]
    · simp [merase, mlookup, hp, ih]

@[simp] theorem mlookup_minsert_self {α : Type} (m : List (String × α))
    (k : String) (v : α) : mlookup (minsert m k v) k = some v := by
  simp [minsert, mlookup]

theorem mlookup_minsert_ne {α : Type} (m : List (String × α)) {k q : String}
    (v : α) (h : q ≠ k) : mlookup (minsert m k v) q = mlookup m q := by
  have : k ≠ q := fun hk => h hk.symm
  simp [minsert, mlookup, this, mlookup_merase_ne m h]

@[simp] theorem mmem_nil (k : String) {α : Type} :
    mmem ([] : List (String × α)) k = false := rfl

theorem mmem_eq_true_iff {α : Type} (m : List (String × α)) (k : String) :
    mmem m k = true ↔ ∃ v, mlookup m k = some v := by
  cases h : mlookup m k <;> simp [mmem, h]

/-! ## Shared polling-interval logic (`utils.py` and
`RachioControllerHandler.calculate_safe_polling_interval`) -/

/-- `controller.py::calculate_safe_polling_interval`.
Each device makes 2 API calls per poll; the interval is derived from the
target calls-per-hour ceiling and clamped to [30 s, 900 s]. -/
def calculate_safe_polling_interval (num_devices target_max_calls_per_hour : Nat) : Nat :=
  let n := if num_devices < 1 then 1 else num_devices
  let calls_per_poll := n * 2
  let min_interval := 30
  let max_interval := 900
  let interval := (calls_per_poll * 3600) / target_max_calls_per_hour
  let interval := max min_interval interval
  min max_interval interval

/-- Python's `a or b or default` over two optional numeric fields, where `0`
and `None` are falsy (`zone.get("duration") or zone.get("defaultRuntime") or 600`). -/
def pyOrD (a b : Option Nat) (d : Nat) : Nat :=
  match a with
  | some x => if x ≠ 0 then x else (match b with
      | some y => if y ≠ 0 then y else d
      | none => d)
  | none => match b with
      | some y => if y ≠ 0 then y else d
      | none => d

/-- A zone record as read by `get_zone_default_duration`
(fields `id`, `duration`, `defaultRuntime`). -/
structure DurZone where
  id : String
  duration : Option Nat
  defaultRuntime : Option Nat
deriving Repr, DecidableEq

/-- `get_zone_default_duration` (identical in both handlers): first zone in
the list with the given id decides; missing fields fall back to 600 s. -/
def get_zone_default_duration : List DurZone → String → Nat
  | [], _ => 600
  | z :: t, zid => if z.id = zid then pyOrD z.duration z.defaultRuntime 600
      else get_zone_default_duration t zid

/-- The handler attributes read by `utils.get_update_interval`. -/
structure PollerView where
  api_rate_remaining : Option Nat
  api_rate_reset : Option Nat
  running_zones : List (String × Nat)
  running_schedules : List (String × Nat)
  pending_start : List (String × Nat)
  zones : List DurZone
  idle_polling_interval : Nat
  active_polling_interval : Nat
deriving Repr

/-- Accumulator for the zone/schedule/pending scan of `get_update_interval`:
`active` flag and the running minima of remaining seconds. -/
structure IntervalAcc where
  active : Bool
  zone_remaining : Option Nat
  schedule_remaining : Option Nat
deriving Repr, DecidableEq

/-- Scan of `handler.running_zones` (keep the minimum positive `remaining`). -/
def scanRunningZones (acc : IntervalAcc) (zones : List (String × Nat)) : IntervalAcc :=
  zones.foldl
    (fun a p =>
      if p.2 > 0 then
        { a with
          active := true
          zone_remaining :=
            match a.zone_remaining with
            | none => some p.2
            | some m => if p.2 < m then some p.2 else some m }
      else a)
    acc

/-- Scan of `handler.running_schedules` (keep the minimum positive `remaining`). -/
def scanRunningSchedules (acc : IntervalAcc) (scheds : List (String × Nat)) : IntervalAcc :=
  scheds.foldl
    (fun a p =>
      if p.2 > 0 then
        { a with
          active := true
          schedule_remaining :=
            match a.schedule_remaining with
            | none => some p.2
            | some m => if p.2 < m then some p.2 else some m }
      else a)
    acc

/-- Scan of `handler._pending_start`: a non-expired pending start makes the
handler active; its remaining time comes from `running_zones` when present
(default 600), else from the zone's default duration. -/
def scanPending (h : PollerView) (now : Nat) (acc : IntervalAcc) : IntervalAcc :=
  h.pending_start.foldl
    (fun a p =>
      if p.2 > now then
        let pending_remaining :=
          match mlookup h.running_zones p.1 with
          | some r => r
          | none => get_zone_default_duration h.zones p.1
        { a with
          active := true
          zone_remaining :=
            match a.zone_remaining with
            | none => some pending_remaining
            | some m => if pending_remaining < m then some pending_remaining else some m }
      else a)
    acc

/-- Lines 25-81 of `utils.py`: the active/idle interval selection of
`get_update_interval` (everything after the rate-limit override).
`remaining_mins < 2` on the float `remaining_secs / 60` is exactly
`remaining_secs < 120`. -/
def get_update_interval_active (h : PollerView) (now : Nat) : Nat :=
  let acc0 : IntervalAcc := ⟨false, none, none⟩
  let acc1 := scanRunningZones acc0 h.running_zones
  let acc2 := scanRunningSchedules acc1 h.running_schedules
  let acc3 := scanPending h now acc2
  let remaining_secs :=
    match acc3.zone_remaining with
    | some r => some r
    | none => acc3.schedule_remaining
  match remaining_secs with
  | none => h.idle_polling_interval
  | some rs =>
    if !acc3.active then h.idle_polling_interval
    else if rs < 120 then min h.active_polling_interval 60
    else h.active_polling_interval

/-- `utils.py::get_update_interval`, in seconds.  The rate-limit override
comes first: with `remaining ≤ 0` and a known parseable reset in the future,
wait until the reset (capped at 1800 s); otherwise (reset absent,
unparseable, or already passed) wait 1800 s.  Then the active/idle rules. -/
def get_update_interval (h : PollerView) (now : Nat) : Nat :=
  match h.api_rate_remaining with
  | some r =>
    if r ≤ 0 then
      match h.api_rate_reset with
      | some reset => if now < reset then min (reset - now) 1800 else 1800
      | none => 1800
    else get_update_interval_active h now
  | none => get_update_interval_active h now

/-! ## Controller handler (`controller.py`) -/

/-- One zone record of the device payload (`data["zones"]`), with the fields
the handler reads (`id`, `remaining`, `duration`, `defaultRuntime`). -/
structure CtrlZone where
  id : String
  remaining : Option Nat
  duration : Option Nat
  defaultRuntime : Option Nat
deriving Repr, DecidableEq

/-- The device payload fields read by `async_update`. -/
structure CtrlDeviceResp where
  status : Option String
  zones : List CtrlZone
  scheduleRules : List String
  zoneId : Option String
deriving Repr, DecidableEq

/-- One entry of the `/current_schedule` response, with the fields the
handler reads. -/
structure SchedItem where
  zoneId : Option String
  remainingSeconds : Option Nat
  remaining : Option Nat
  status : Option String
  zoneDuration : Option Nat
  duration : Option Nat
  scheduleRuleId : Option String
  id : Option String
  scheduleType : Option String
  zoneName : Option String
  zoneNumber : Option Nat
  zoneStartDate : Option String
deriving Repr, DecidableEq

/-- A `running_zones` entry of the controller handler.  Optimistic entries
created by `async_start_zone` carry only `remaining`. -/
structure CtrlRunEntry where
  remaining : Nat
  schedule_type : Option String
  schedule_id : Option String
  zone_name : Option String
  zone_number : Option Nat
  started_at : Option String
deriving Repr, DecidableEq

/-- A `running_schedules` entry: either the raw `/current_schedule` item
(stored by `async_update`) or the optimistic `{"id": ..., "optimistic": True}`
dict stored by `async_start_schedule`. -/
inductive CtrlSchedEntry where
  | fromPoll (item : SchedItem)
  | optimistic
deriving Repr, DecidableEq

/-- The mutable state of `RachioControllerHandler`. `device_data` is an
opaque pass-through and `scheduleRules` dicts are abstracted to their ids;
neither is read by the logic under verification. -/
structure CtrlState where
  device_id : String
  status : String
  zones : List CtrlZone
  schedules : List String
  running_zones : List (String × CtrlRunEntry)
  running_schedules : List (String × CtrlSchedEntry)
  pending_start : List (String × Nat)
  api_call_count : Nat
  api_rate_limit : Option Nat
  api_rate_remaining : Option Nat
  api_rate_reset : Option Nat
  idle_polling_interval : Nat
  active_polling_interval : Nat
deriving Repr, DecidableEq

/-- `RachioControllerHandler.__init__`. -/
def ctrl_init (device_id status : String) : CtrlState :=
  { device_id := device_id
    status := status
    zones := []
    schedules := []
    running_zones := []
    running_schedules := []
    pending_start := []
    api_call_count := 0
    api_rate_limit := none
    api_rate_remaining := none
    api_rate_reset := none
    idle_polling_interval := 300
    active_polling_interval := 120 }

/-- Rate-limit header fields of one HTTP response (already parsed; an
absent header is `none`). -/
structure RateHeaders where
  limit : Option Nat
  remaining : Option Nat
  reset : Option Nat
deriving Repr, DecidableEq

/-- Header handling of `RachioControllerHandler._make_request` (lines
58-66): `api_call_count` takes the limit header when present, and each
rate-limit field is updated only if its header is present. -/
def ctrl_process_rate_headers (s : CtrlState) (h : RateHeaders) : CtrlState :=
  let s := { s with api_call_count := h.limit.getD s.api_call_count }
  let s := match h.limit with
    | some v => { s with api_rate_limit := some v }
    | none => s
  let s := match h.remaining with
    | some v => { s with api_rate_remaining := some v }
    | none => s
  match h.reset with
  | some v => { s with api_rate_reset := some v }
  | none => s

/-- The `remaining` computation for one list entry of `/current_schedule`
(lines 143-148): prefer `remainingSeconds`, fall back to `remaining`, and if
that is missing or zero while the status (upper-cased) is PROCESSING or
WATERING, fall back to `zoneDuration or duration or 0`. -/
def schedRemainingList (it : SchedItem) : Option Nat :=
  let r0 : Option Nat :=
    match it.remainingSeconds with
    | some r => some r
    | none => it.remaining
  let st := (it.status.getD "").toUpper
  if (r0 = none ∨ r0 = some 0) ∧ (st = "PROCESSING" ∨ st = "WATERING") then
    some (pyOrD it.zoneDuration it.duration 0)
  else r0

/-- Processing of one list entry of `/current_schedule` (lines 141-163):
a zone with positive remaining time becomes a running zone, and its
schedule id (if any) a running schedule. -/
def ctrlProcessListItem
    (acc : List (String × CtrlRunEntry) × List (String × CtrlSchedEntry))
    (it : SchedItem) :
    List (String × CtrlRunEntry) × List (String × CtrlSchedEntry) :=
  let sched_id := match it.scheduleRuleId with
    | some x => some x
    | none => it.id
  match it.zoneId, schedRemainingList it with
  | some zid, some r =>
    if r > 0 then
      let rz := minsert acc.1 zid
        ⟨r, it.scheduleType, sched_id, it.zoneName, it.zoneNumber, it.zoneStartDate⟩
      let rs := match sched_id with
        | some sid => minsert acc.2 sid (.fromPoll it)
        | none => acc.2
      (rz, rs)
    else acc
  | _, _ => acc

/-- Processing of a single-object `/current_schedule` response (lines
164-190).  Note: unlike the list case, the status is compared without
upper-casing here. -/
def ctrlProcessSingle (d : SchedItem) :
    List (String × CtrlRunEntry) × List (String × CtrlSchedEntry) :=
  let remaining := pyOrD d.remainingSeconds d.remaining 0
  let sched_id := match d.scheduleRuleId with
    | some x => some x
    | none => d.id
  match d.zoneId with
  | some zid =>
    let hasDur := pyOrD d.zoneDuration d.duration 0 ≠ 0
    if remaining > 0 ∨ ((d.status = some "PROCESSING" ∨ d.status = some "WATERING") ∧ hasDur) then
      let remaining := if remaining ≤ 0 then pyOrD d.zoneDuration d.duration 0 else remaining
      let rz := [(zid, (⟨remaining, d.scheduleType, sched_id, d.zoneName, d.zoneNumber,
        d.zoneStartDate⟩ : CtrlRunEntry))]
      let rs := match sched_id with
        | some sid => [(sid, CtrlSchedEntry.fromPoll d)]
        | none => []
      (rz, rs)
    else ([], [])
  | none => ([], [])

/-- The dead running-zone detection from the device payload (lines 111-131);
its result is discarded when line 138 resets `running_zones = {}`. -/
def ctrlDetectFromDevice (zones : List CtrlZone) (deviceResp : Option CtrlDeviceResp)
    (device_status : String) : List (String × CtrlRunEntry) :=
  let rz := zones.foldl
    (fun m z =>
      if z.remaining.getD 0 > 0 then
        minsert m z.id ⟨z.remaining.getD 0, none, none, none, none, none⟩
      else m)
    []
  if rz.isEmpty then
    match deviceResp with
    | some d =>
      if device_status = "WATERING" then
        match d.zoneId with
        | some zid =>
          let remaining :=
            ((zones.find? (fun z => z.id = zid)).bind (fun z => z.remaining)).getD 0
          [(zid, (⟨remaining, none, none, none, none, none⟩ : CtrlRunEntry))]
        | none => rz
      else rz
    | none => rz
  else rz

/-- The decoded `/current_schedule` response: the API may return a list or
a single object. -/
inductive CurrentScheduleResp where
  | list (items : List SchedItem)
  | single (item : SchedItem)
deriving Repr, DecidableEq

/-- `RachioControllerHandler.async_update`, as a function of the decoded
responses (`none` = request failed / no data; `_make_request` swallows
request errors and returns `None`).  Lines 82-88: with `remaining ≤ 1` and
`now < reset` the poll is skipped and the state kept.  Line 138 resets
`running_zones` so only `/current_schedule` feeds the running sets; a
failed request therefore leaves them empty.  Lines 196-203 purge pending
starts that are expired and not running. -/
def ctrl_async_update (s : CtrlState) (now : Nat)
    (deviceResp : Option CtrlDeviceResp) (schedResp : Option CurrentScheduleResp) :
    CtrlState :=
  let rateGuard :=
    match s.api_rate_remaining, s.api_rate_reset with
    | some rem, some rst => decide (rem ≤ 1) && decide (now < rst)
    | _, _ => false
  if rateGuard then s
  else
    let s :=
      match deviceResp with
      | some d => { s with
          status := d.status.getD "OFFLINE"
          zones := d.zones
          schedules := d.scheduleRules }
      | none => { s with status := "OFFLINE", zones := [], schedules := [] }
    let _discarded := ctrlDetectFromDevice s.zones deviceResp s.status
    let pair :=
      match schedResp with
      | some (.list items) => items.foldl ctrlProcessListItem ([], [])
      | some (.single d) => ctrlProcessSingle d
      | none => ([], [])
    let s := { s with running_zones := pair.1, running_schedules := pair.2 }
    { s with pending_start :=
        s.pending_start.filter (fun p => mmem s.running_zones p.1 || decide (now ≤ p.2)) }

/-- State transition of `async_start_zone` on a success response (lines
222-228): optimistic running entry plus a pending start expiring after
`OPTIMISTIC_WINDOW = 60` seconds. -/
def ctrl_start_zone_local (s : CtrlState) (zone_id : String) (duration now : Nat) :
    CtrlState :=
  { s with
    running_zones := minsert s.running_zones zone_id
      ⟨duration, none, none, none, none, none⟩
    pending_start := minsert s.pending_start zone_id (now + 60) }

/-- State transition of `async_stop_zone` on a success response (lines
247-252): remove the zone from `running_zones` and `_pending_start`.  The
outbound request is a device-wide `device/stop_water` call carrying
`self.device_id`, not the zone id. -/
def ctrl_stop_zone_local (s : CtrlState) (zone_id : String) : CtrlState :=
  { s with
    running_zones := merase s.running_zones zone_id
    pending_start := merase s.pending_start zone_id }

/-- State transition of `async_start_schedule` on a success response (lines
373-375): optimistic `running_schedules` entry plus a pending start. -/
def ctrl_start_schedule_local (s : CtrlState) (schedule_id : String) (now : Nat) :
    CtrlState :=
  { s with
    running_schedules := minsert s.running_schedules schedule_id .optimistic
    pending_start := minsert s.pending_start schedule_id (now + 60) }

/-- State transition of `async_stop_schedule` on a success response (lines
398-400): clear all running schedules, drop the schedule's pending start. -/
def ctrl_stop_schedule_local (s : CtrlState) (schedule_id : String) : CtrlState :=
  { s with
    running_schedules := []
    pending_start := merase s.pending_start schedule_id }

/-- `RachioControllerHandler.is_zone_optimistically_on` (lines 297-305). -/
def ctrl_is_zone_optimistically_on (s : CtrlState) (now : Nat) (zone_id : String) :
    Bool :=
  let pending := decide ((mlookup s.pending_start zone_id).getD 0 > now)
  let running := mmem s.running_zones zone_id
  running || pending

/-- `schedule.get("remaining", 0)` on a stored `running_schedules` value. -/
def ctrlSchedEntryRemaining : CtrlSchedEntry → Nat
  | .fromPoll it => it.remaining.getD 0
  | .optimistic => 0

/-- `RachioControllerHandler._get_remaining_time`, kept in seconds (the
source divides by 60 and compares minutes; thresholds below are scaled
accordingly). -/
def ctrl_get_remaining_secs (s : CtrlState) : Nat :=
  let r1 := s.running_zones.foldl (fun m p => max m p.2.remaining) 0
  s.running_schedules.foldl (fun m p => max m (ctrlSchedEntryRemaining p.2)) r1

/-- `RachioControllerHandler._get_update_interval` (lines 328-346), in
seconds.  `remaining > 10` minutes on `secs / 60` is `secs > 600`, etc.
Note: this function never consults the rate-limit budget. -/
def ctrl_get_update_interval (s : CtrlState) (num_devices : Nat) : Nat :=
  let safe_min := calculate_safe_polling_interval num_devices 80
  let remaining := ctrl_get_remaining_secs s
  if s.running_zones.isEmpty && s.running_schedules.isEmpty then max safe_min 300
  else if remaining > 600 then max safe_min 120
  else if remaining > 300 then max safe_min 60
  else if remaining > 60 then max safe_min 30
  else max safe_min 20

/-- States of the controller handler reachable through its public
operations (success paths, at arbitrary times). -/
inductive CtrlReachable : CtrlState → Prop where
  | init (device_id status : String) : CtrlReachable (ctrl_init device_id status)
  | headers (s : CtrlState) (h : RateHeaders) :
      CtrlReachable s → CtrlReachable (ctrl_process_rate_headers s h)
  | update (s : CtrlState) (now : Nat) (d : Option CtrlDeviceResp)
      (c : Option CurrentScheduleResp) :
      CtrlReachable s → CtrlReachable (ctrl_async_update s now d c)
  | startZone (s : CtrlState) (z : String) (dur now : Nat) :
      CtrlReachable s → CtrlReachable (ctrl_start_zone_local s z dur now)
  | stopZone (s : CtrlState) (z : String) :
      CtrlReachable s → CtrlReachable (ctrl_stop_zone_local s z)
  | startSchedule (s : CtrlState) (sid : String) (now : Nat) :
      CtrlReachable s → CtrlReachable (ctrl_start_schedule_local s sid now)
  | stopSchedule (s : CtrlState) (sid : String) :
      CtrlReachable s → CtrlReachable (ctrl_stop_schedule_local s sid)

/-! ## Smart hose timer handler (`smart_hose_timer.py`) -/

/-- `valve["state"]["reportedState"]["lastWateringAction"]` with the fields
the handler reads; a missing action is the all-`none` record (Python `{}`).
ISO-8601 `start` strings are modelled as parsed timestamps. -/
structure LastAction where
  start : Option Nat
  durationSeconds : Option Nat
  programId : Option String
deriving Repr, DecidableEq

/-- One valve record of the list-valves response.  `connected` is
`state.reportedState.connected`; `duration` / `defaultRuntime` exist only
for `get_zone_default_duration`'s fallback chain. -/
structure Valve where
  id : String
  connected : Bool
  duration : Option Nat
  defaultRuntime : Option Nat
  lastWateringAction : LastAction
deriving Repr, DecidableEq

/-- A `running_zones` entry of the smart-hose-timer handler.  Optimistic
entries created by `async_start_zone` carry only `remaining`. -/
structure RunEntry where
  remaining : Nat
  start_time : Option Nat
  duration : Option Nat
  program_id : Option String
deriving Repr, DecidableEq

/-- One parsed run of the day-views summary kept in
`valve_run_summaries` (`previous_run` / `next_run`): start timestamp,
source tag (`"program"` or `"quick_run"`), and the program id when the run
came from a program. -/
structure RunInfo where
  start : Nat
  source : String
  program_id : Option String
deriving Repr, DecidableEq

/-- `valve_run_summaries[valve_id]`: most recent past run and nearest
future run. -/
structure RunSummary where
  previous_run : Option RunInfo
  next_run : Option RunInfo
deriving Repr, DecidableEq

/-- A program (schedule) as kept in `self.schedules`, with the fields the
running-schedule derivation reads.  Each planned run is abstracted to its
start timestamp (`some`) or `none` when the `start` field lacks
year/month/day or fails to parse. -/
structure Program where
  id : String
  name : String
  valveIds : List String
  plannedRuns : List (Option Nat)
  enabled : Bool
deriving Repr, DecidableEq

/-- The mutable state of `RachioSmartHoseTimerHandler`.  Program-details
caching, deleted-program tracking and entity-registry plumbing (lines
107-809) are outside the verified reconciler; their net effect on
`self.schedules` / `valve_run_summaries` enters through `ShtInputs`. -/
structure ShtState where
  device_id : String
  status : String
  base_station_connected : Bool
  zones : List Valve
  schedules : List Program
  running_zones : List (String × RunEntry)
  running_schedules : List (String × Nat)
  pending_start : List (String × Nat)
  last_watering_completed : List (String × Nat)
  force_stopped : List (String × Nat)
  expected_end_times : List (String × Nat)
  valve_run_summaries : List (String × RunSummary)
  api_call_count : Nat
  api_rate_limit : Option Nat
  api_rate_remaining : Option Nat
  api_rate_reset : Option Nat
  idle_polling_interval : Nat
  active_polling_interval : Nat
deriving Repr, DecidableEq

/-- `RachioSmartHoseTimerHandler.__init__`. -/
def sht_init (device_id status : String) : ShtState :=
  { device_id := device_id
    status := status
    base_station_connected := false
    zones := []
    schedules := []
    running_zones := []
    running_schedules := []
    pending_start := []
    last_watering_completed := []
    force_stopped := []
    expected_end_times := []
    valve_run_summaries := []
    api_call_count := 0
    api_rate_limit := none
    api_rate_remaining := none
    api_rate_reset := none
    idle_polling_interval := 300
    active_polling_interval := 120 }

/-- `RachioSmartHoseTimerHandler._process_response` header handling (lines
88-96): bump the call counter, update each rate-limit field only if its
header is present. -/
def sht_process_rate_headers (s : ShtState) (h : RateHeaders) : ShtState :=
  let s := { s with api_call_count := s.api_call_count + 1 }
  let s := match h.limit with
    | some v => { s with api_rate_limit := some v }
    | none => s
  let s := match h.remaining with
    | some v => { s with api_rate_remaining := some v }
    | none => s
  match h.reset with
  | some v => { s with api_rate_reset := some v }
  | none => s

/-- The guarded completion-time write used at lines 898-899 and 930-931:
record `e` for `k` only when nothing is recorded yet or the recorded time
is strictly smaller. -/
def lwcUpdate (lwc : List (String × Nat)) (k : String) (e : Nat) :
    List (String × Nat) :=
  match mlookup lwc k with
  | none => minsert lwc k e
  | some lc => if lc < e then minsert lwc k e else lwc

/-- Accumulator of the per-valve scan of `async_update` (lines 820-906). -/
structure ValveAcc where
  running : List (String × RunEntry)
  force_stopped : List (String × Nat)
  lwc : List (String × Nat)
  expected : List (String × Nat)
deriving Repr, DecidableEq

/-- Lines 870-904, after the force-stop window has been handled: the
stale-data check, the running-window check, and the completion record. -/
def processValveCore (now : Nat) (acc : ValveAcc) (vid : String)
    (st d endT endBuf : Nat) (la : LastAction) : ValveAcc :=
  if (match mlookup acc.lwc vid with
      | some lc => decide (endT ≤ lc) && decide (st ≤ now) && decide (now ≤ endBuf)
      | none => false) then acc
  else if st ≤ now ∧ now ≤ endBuf then
    { acc with
      running := minsert acc.running vid ⟨endT - now, some st, some d, la.programId⟩
      expected := minsert acc.expected vid endT }
  else if endBuf < now then
    { acc with lwc := lwcUpdate acc.lwc vid endT }
  else acc

/-- One iteration of the valve scan (lines 820-906).  A valve without a
truthy `start` and `durationSeconds` is skipped; `effective end` is
`start + duration` and the buffer adds 30 s; a valve force-stopped less
than 30 s ago is ignored, an older force-stop record is cleared. -/
def processValve (now : Nat) (acc : ValveAcc) (v : Valve) : ValveAcc :=
  match v.lastWateringAction.start, v.lastWateringAction.durationSeconds with
  | some st, some d =>
    if d = 0 then acc
    else
      match mlookup acc.force_stopped v.id with
      | some fstop =>
        if now - fstop < 30 then acc
        else
          processValveCore now { acc with force_stopped := merase acc.force_stopped v.id }
            v.id st d (st + d) (st + d + 30) v.lastWateringAction
      | none =>
          processValveCore now acc v.id st d (st + d) (st + d + 30) v.lastWateringAction
  | _, _ => acc

/-- Lines 908-919: keep a previously running zone the API no longer
reports if its pending start has not expired. -/
def mergePending (now : Nat) (prevRunning : List (String × RunEntry))
    (pending : List (String × Nat)) (newRunning : List (String × RunEntry)) :
    List (String × RunEntry) :=
  prevRunning.foldl
    (fun acc p =>
      if mmem acc p.1 then acc
      else
        match mlookup pending p.1 with
        | some e => if e > now then minsert acc p.1 p.2 else acc
        | none => acc)
    newRunning

/-- One iteration of the completion detection (lines 925-934): a valve that
was running, is no longer, and has an expected end time gets a (guarded)
completion record and its expected end time dropped. -/
def completionStep (newRunning : List (String × RunEntry))
    (acc : List (String × Nat) × List (String × Nat)) (vid : String) :
    List (String × Nat) × List (String × Nat) :=
  if mmem newRunning vid then acc
  else
    match mlookup acc.2 vid with
    | some e => (lwcUpdate acc.1 vid e, merase acc.2 vid)
    | none => acc

/-- Lines 925-934 over the zones that were running before the poll. -/
def completionPass (prevKeys : List String) (newRunning : List (String × RunEntry))
    (lwc expected : List (String × Nat)) :
    List (String × Nat) × List (String × Nat) :=
  prevKeys.foldl (completionStep newRunning) (lwc, expected)

/-- Lines 936-939: drop expected end times of zones no longer running. -/
def cleanupExpected (newRunning : List (String × RunEntry))
    (expected : List (String × Nat)) : List (String × Nat) :=
  expected.filter (fun p => mmem newRunning p.1)

/-- `|a - b|` on timestamps. -/
def tdiff (a b : Nat) : Nat := max a b - min a b

/-- Lines 974-1011: match a running valve's start time against its run
summaries — previous run first (tolerance 3600 s), then next run
(tolerance 1800 s); only runs with source `"program"` count. -/
def summaryMatch (sums : RunSummary) (vst : Nat) : Option String :=
  let prevM : Option String :=
    match sums.previous_run with
    | some pr =>
      if pr.source = "program" then
        if tdiff pr.start vst < 3600 then pr.program_id else none
      else none
    | none => none
  match prevM with
  | some pid => some pid
  | none =>
    match sums.next_run with
    | some nr =>
      if nr.source = "program" then
        if tdiff nr.start vst < 1800 then nr.program_id else none
      else none
    | none => none

/-- Lines 1022-1054: over all programs containing the valve, find the
planned run with the smallest absolute time delta to the valve's start
(strict improvement only, so the first program wins ties). -/
def plannedRunsBest (schedules : List Program) (vid : String) (vst : Nat) :
    Option String × Option Nat :=
  schedules.foldl
    (fun bm prog =>
      if vid ∈ prog.valveIds then
        prog.plannedRuns.foldl
          (fun bm pr =>
            match pr with
            | some ps =>
              let td := tdiff ps vst
              let better := match bm.2 with
                | none => true
                | some bd => decide (td < bd)
              if better then (some prog.id, some td) else bm
            | none => bm)
          bm
      else bm)
    (none, none)

/-- Lines 1056-1060: accept the planned-runs best match only under the
3600 s tolerance. -/
def fallbackMatch (schedules : List Program) (vid : String) (vst : Nat) :
    Option String :=
  match plannedRunsBest schedules vid vst with
  | (some pid, some td) => if td < 3600 then some pid else none
  | _ => none

/-- Lines 954-1060 for one running valve: direct `programId` from the
watering action, then summary timing, then the planned-runs fallback; a
valve without a stored `start_time` (an optimistic entry) is never
matched. -/
def matchValveToProgram (schedules : List Program)
    (vsums : List (String × RunSummary)) (vid : String) (e : RunEntry) :
    Option String :=
  match e.start_time with
  | none => none
  | some vst =>
    match e.program_id with
    | some pid => some pid
    | none =>
      let fromSummaries :=
        match mlookup vsums vid with
        | some sums => summaryMatch sums vst
        | none => none
      match fromSummaries with
      | some pid => some pid
      | none => fallbackMatch schedules vid vst

/-- Lines 950-1060: the valve → program attribution map over all running
valves. -/
def sht_attribution (schedules : List Program)
    (vsums : List (String × RunSummary)) (running : List (String × RunEntry)) :
    List (String × String) :=
  running.foldl
    (fun m p =>
      match matchValveToProgram schedules vsums p.1 p.2 with
      | some pid => minsert m p.1 pid
      | none => m)
    []

/-- Lines 1076-1087: the program's member valves that are running and
attributed to it. -/
def attributedRunningValves (running : List (String × RunEntry))
    (vmap : List (String × String)) (prog : Program) : List String :=
  prog.valveIds.filter
    (fun z => mmem running z && decide (mlookup vmap z = some prog.id))

/-- Lines 1095-1098: maximum remaining time over the attributed running
valves. -/
def maxAttributedRemaining (running : List (String × RunEntry))
    (rvs : List String) : Nat :=
  rvs.foldl
    (fun m z =>
      max m (match mlookup running z with
        | some e => e.remaining
        | none => 0))
    0

/-- One program of the loop at lines 1069-1106: insert it into
`running_schedules` with the maximum remaining time when it has attributed
running valves. -/
def crsStep (running : List (String × RunEntry)) (vmap : List (String × String))
    (rs : List (String × Nat)) (prog : Program) : List (String × Nat) :=
  let rvs := attributedRunningValves running vmap prog
  if rvs.isEmpty then rs
  else minsert rs prog.id (maxAttributedRemaining running rvs)

/-- Lines 1069-1106: a program is running iff it has at least one
attributed running valve; its entry carries the maximum remaining time.
(The source also mirrors this into `program["active"]` / `program["remaining"]`
on the schedule dicts.) -/
def computeRunningSchedules (schedules : List Program)
    (running : List (String × RunEntry)) (vmap : List (String × String)) :
    List (String × Nat) :=
  schedules.foldl (crsStep running vmap) []

/-- The reconciliation core of `async_update` (lines 811-1106), from the
already-fetched state to the new running sets, completion records and
bookkeeping maps. -/
def sht_reconcile (s : ShtState) (now : Nat) : ShtState :=
  let prevKeys := mkeys s.running_zones
  let a0 : ValveAcc := ⟨[], s.force_stopped, s.last_watering_completed, s.expected_end_times⟩
  let a1 := s.zones.foldl (processValve now) a0
  let merged := mergePending now s.running_zones s.pending_start a1.running
  let lwcExp := completionPass prevKeys merged a1.lwc a1.expected
  let expected := cleanupExpected merged lwcExp.2
  let vmap := sht_attribution s.schedules s.valve_run_summaries merged
  let rs := computeRunningSchedules s.schedules merged vmap
  { s with
    running_zones := merged
    running_schedules := rs
    force_stopped := a1.force_stopped
    last_watering_completed := lwcExp.1
    expected_end_times := expected }

/-- The decoded inputs of one `async_update` cycle: base-station
connectivity, the valve list (`none` = failed request), and the programs
and per-valve run summaries produced by the day-views/program-details
section (lines 238-809), abstracted to their results. -/
structure ShtInputs where
  baseStation : Option Bool
  valves : Option (List Valve)
  schedules : List Program
  valve_run_summaries : List (String × RunSummary)
deriving Repr, DecidableEq

/-- Lines 203-236 and 421-458: store the fetched base-station state, valve
list, programs and run summaries (summaries are per-key overwrites; keys
absent from the new data keep their old value). -/
def sht_apply_inputs (s : ShtState) (inp : ShtInputs) : ShtState :=
  let s :=
    match inp.baseStation with
    | some c => { s with
        base_station_connected := c
        status := if c then "ONLINE" else "OFFLINE" }
    | none => { s with base_station_connected := false, status := "OFFLINE" }
  let s := { s with zones := inp.valves.getD [] }
  let s := { s with
    valve_run_summaries :=
      inp.valve_run_summaries.foldl
        (fun m (p : String × RunSummary) => minsert m p.1 p.2)
        s.valve_run_summaries }
  { s with schedules := inp.schedules }

/-- `RachioSmartHoseTimerHandler.async_update` as a function of the decoded
responses. -/
def sht_update_local (s : ShtState) (inp : ShtInputs) (now : Nat) : ShtState :=
  sht_reconcile (sht_apply_inputs s inp) now

/-- `RachioSmartHoseTimerHandler._is_valve_connected`. -/
def sht_is_valve_connected (s : ShtState) (zone_id : String) : Bool :=
  match s.zones.find? (fun v => decide (v.id = zone_id)) with
  | some v => v.connected
  | none => false

/-- State transition of `async_start_zone` on a success response (lines
1129-1141): always mark pending (60 s window); add to `running_zones` only
when both the base station and the valve are connected. -/
def sht_start_zone_local (s : ShtState) (zone_id : String) (duration now : Nat) :
    ShtState :=
  let s := { s with pending_start := minsert s.pending_start zone_id (now + 60) }
  if s.base_station_connected && sht_is_valve_connected s zone_id then
    { s with running_zones := minsert s.running_zones zone_id ⟨duration, none, none, none⟩ }
  else s

/-- Lines 1186-1203: scan the valve list for a recent watering action
(started at most 120 s ago). -/
def sht_valve_recent_activity (zones : List Valve) (zone_id : String) (now : Nat) :
    Bool :=
  zones.any
    (fun v =>
      decide (v.id = zone_id) &&
      match v.lastWateringAction.start with
      | some st => decide (st ≤ now) && decide (now - st ≤ 120)
      | none => false)

/-- Lines 1158-1213 of `async_stop_zone`: decide whether a completion time
may be recorded (running per the API; or pending with connectivity and
either still inside the pending window or confirmed by recent API
activity). -/
def sht_stop_should_record (s : ShtState) (zone_id : String) (now : Nat) : Bool :=
  if mmem s.running_zones zone_id then true
  else if mmem s.pending_start zone_id then
    if s.base_station_connected && sht_is_valve_connected s zone_id then
      if (mlookup s.pending_start zone_id).getD 0 > now then true
      else sht_valve_recent_activity s.zones zone_id now
    else false
  else false

/-- State transition of `async_stop_zone` (lines 1153-1221; the state is
mutated before the stop request is issued): record the force stop, record
the completion time when justified, and clear the zone from
`running_zones` and `_pending_start`. -/
def sht_stop_zone_local (s : ShtState) (zone_id : String) (now : Nat) : ShtState :=
  let should_record := sht_stop_should_record s zone_id now
  { s with
    force_stopped := minsert s.force_stopped zone_id now
    last_watering_completed :=
      if should_record then minsert s.last_watering_completed zone_id now
      else s.last_watering_completed
    running_zones := merase s.running_zones zone_id
    pending_start := merase s.pending_start zone_id }

/-- State transition of `async_start_schedule` on a success response
(lines 1248-1252): a pending start keyed by the program id. -/
def sht_start_schedule_local (s : ShtState) (schedule_id : String) (now : Nat) :
    ShtState :=
  { s with pending_start := minsert s.pending_start schedule_id (now + 60) }

/-- `RachioSmartHoseTimerHandler.is_zone_optimistically_on` (lines
1273-1291), with the source's exact fall-through structure. -/
def sht_is_zone_optimistically_on (s : ShtState) (now : Nat) (zone_id : String) :
    Bool :=
  let has_pending_start :=
    match mlookup s.pending_start zone_id with
    | some e => decide (e > now)
    | none => false
  if (mlookup s.force_stopped zone_id).isSome then
    if has_pending_start then
      if (mlookup s.pending_start zone_id).getD 0 > now then true
      else mmem s.running_zones zone_id || has_pending_start
    else false
  else mmem s.running_zones zone_id || has_pending_start

/-- The handler attributes `utils.get_update_interval` reads, taken from a
smart-hose-timer state (`_get_update_interval` delegates to the shared
helper). -/
def sht_poller_view (s : ShtState) : PollerView :=
  { api_rate_remaining := s.api_rate_remaining
    api_rate_reset := s.api_rate_reset
    running_zones := s.running_zones.map (fun p => (p.1, p.2.remaining))
    running_schedules := s.running_schedules
    pending_start := s.pending_start
    zones := s.zones.map (fun v => ⟨v.id, v.duration, v.defaultRuntime⟩)
    idle_polling_interval := s.idle_polling_interval
    active_polling_interval := s.active_polling_interval }

/-- `RachioSmartHoseTimerHandler._get_update_interval`. -/
def sht_get_update_interval (s : ShtState) (now : Nat) : Nat :=
  get_update_interval (sht_poller_view s) now

/-- States of the smart-hose-timer handler reachable through its public
operations (success paths, at arbitrary times). -/
inductive ShtReachable : ShtState → Prop where
  | init (device_id status : String) : ShtReachable (sht_init device_id status)
  | headers (s : ShtState) (h : RateHeaders) :
      ShtReachable s → ShtReachable (sht_process_rate_headers s h)
  | update (s : ShtState) (inp : ShtInputs) (now : Nat) :
      ShtReachable s → ShtReachable (sht_update_local s inp now)
  | startZone (s : ShtState) (z : String) (dur now : Nat) :
      ShtReachable s → ShtReachable (sht_start_zone_local s z dur now)
  | stopZone (s : ShtState) (z : String) (now : Nat) :
      ShtReachable s → ShtReachable (sht_stop_zone_local s z now)
  | startSchedule (s : ShtState) (sid : String) (now : Nat) :
      ShtReachable s → ShtReachable (sht_start_schedule_local s sid now)

/-! ## Spec-side definitions (for refinement comparison)

These two definitions follow the wording of the specification, not the
source, and exist only to compare the implementation against the spec's
invariant. -/

/-- Spec wording: "z has a non-expired `start` PendingIntent
(`_pending_start` entry with expiry > now)". -/
def spec_pending_valid (pending : List (String × Nat)) (now : Nat) (z : String) :
    Bool :=
  match mlookup pending z with
  | some e => decide (now < e)
  | none => false

/-- Spec wording of the invariant, for a smart-hose-timer state: the zone is
on iff it is in `running_zones`, or it has a non-expired start intent that
has not been superseded by a later stop.  A start intent with expiry `e` was
issued at `e - 60` (the handler's window); a recorded force stop supersedes
it only when the stop time is strictly after the issuance. -/
def spec_is_running_sht (s : ShtState) (now : Nat) (z : String) : Bool :=
  mmem s.running_zones z ||
  (spec_pending_valid s.pending_start now z &&
    (match mlookup s.force_stopped z, mlookup s.pending_start z with
     | some stopT, some e => decide (stopT ≤ e - 60)
     | _, _ => true))

/-! ## Claim theorems -/

/-- C5 (counterexample): with 11 devices and the default 80 calls/hour
ceiling, `calculate_safe_polling_interval` clamps the interval to 900 s,
so the aggregate `(3600 / interval) * N * 2` rises to 88 calls per hour,
exceeding the ceiling — the claimed bound fails at N = 11. -/
theorem c5_counterexample :
    calculate_safe_polling_interval 11 80 = 900 ∧
    ¬ (3600 / calculate_safe_polling_interval 11 80) * 11 * 2 ≤ 80 := by
  decide

/-- C5 (amended): for 1 ≤ N ≤ 10 devices the computed idle floor keeps
`(3600 / interval) * N * 2` at or under the default 80 calls/hour ceiling;
beyond N = 10 the 900 s upper clamp of `calculate_safe_polling_interval`
breaks the bound. -/
theorem c5_amended (n : Nat) (h1 : 1 ≤ n) (h2 : n ≤ 10) :
    (3600 / calculate_safe_polling_interval n 80) * n * 2 ≤ 80 := by
  interval_cases n <;> decide

/-- Witness for `c5_amended` at N = 3. -/
theorem c5_amended_witness :
    1 ≤ 3 ∧ 3 ≤ 10 ∧ (3600 / calculate_safe_polling_interval 3 80) * 3 * 2 ≤ 80 :=
  ⟨by decide, by decide, c5_amended 3 (by decide) (by decide)⟩

/-- The controller state of the C6 counterexample: an exhausted budget
(remaining = 0) with a known reset 120 s after the evaluation time 1000,
and nothing running. -/
def c6CexState : CtrlState :=
  { ctrl_init "dev1" "ONLINE" with
    api_rate_remaining := some 0
    api_rate_reset := some 1120 }

/-- C6 (counterexample): the controller handler's `_get_update_interval`
never consults the rate-limit budget — with remaining = 0 and reset at
now + 120 s it still returns the 300 s idle interval, not the 120 s the
claim requires. -/
theorem c6_counterexample :
    c6CexState.api_rate_remaining = some 0 ∧
    c6CexState.api_rate_reset = some 1120 ∧
    1120 - 1000 = 120 ∧
    ctrl_get_update_interval c6CexState 1 = 300 ∧
    (300 : Nat) ≠ 120 := by
  refine ⟨rfl, rfl, by decide, by decide, by decide⟩

/-- C6 (amended): for the shared `utils.get_update_interval` (used by the
smart-hose-timer handler), an exhausted budget with a known future reset
yields a delay of exactly the time until the reset, capped at 1800 s,
overriding the idle/active rules; the controller handler's own
`_get_update_interval` has no such override. -/
theorem c6_amended (h : PollerView) (now r t : Nat)
    (hr : h.api_rate_remaining = some r) (hr0 : r ≤ 0)
    (ht : h.api_rate_reset = some t) (hlt : now < t) :
    get_update_interval h now = min (t - now) 1800 := by
  unfold get_update_interval
  rw [hr, ht]
  simp [hr0, hlt]

/-- The poller view of the C6 witness: scenario D (remaining = 0, reset =
now + 120 s at now = 1000). -/
def c6WitnessView : PollerView :=
  { api_rate_remaining := some 0
    api_rate_reset := some 1120
    running_zones := []
    running_schedules := []
    pending_start := []
    zones := []
    idle_polling_interval := 300
    active_polling_interval := 120 }

/-- Witness for `c6_amended`: scenario D gives a 120 s delay. -/
theorem c6_amended_witness :
    c6WitnessView.api_rate_remaining = some 0 ∧ (0 : Nat) ≤ 0 ∧
    c6WitnessView.api_rate_reset = some 1120 ∧ 1000 < 1120 ∧
    get_update_interval c6WitnessView 1000 = min (1120 - 1000) 1800 ∧
    min (1120 - 1000) 1800 = 120 :=
  ⟨rfl, by decide, rfl, by decide,
    c6_amended c6WitnessView 1000 0 1120 rfl (by decide) rfl (by decide), by decide⟩

/-- C7: stopping a zone twice in a row leaves it absent from
`running_zones` and `_pending_start` in both handlers (the embedded
transitions are total functions — the success path raises nothing; the
smart-hose-timer variant mutates local state even before its request). -/
theorem c7_stop_idempotent (cs : CtrlState) (ss : ShtState) (z : String)
    (now1 now2 : Nat) :
    (mmem (ctrl_stop_zone_local (ctrl_stop_zone_local cs z) z).running_zones z = false ∧
     mmem (ctrl_stop_zone_local (ctrl_stop_zone_local cs z) z).pending_start z = false) ∧
    (mmem (sht_stop_zone_local (sht_stop_zone_local ss z now1) z now2).running_zones z = false ∧
     mmem (sht_stop_zone_local (sht_stop_zone_local ss z now1) z now2).pending_start z = false) := by
  simp [ctrl_stop_zone_local, sht_stop_zone_local, mmem]

/-- C8: in both handlers, a rate-limit header absent from a response leaves
the stored field unchanged, and a present header replaces it — absent
headers never overwrite known values. -/
theorem c8_absent_headers_preserved (cs : CtrlState) (ss : ShtState) (h : RateHeaders) :
    ((ctrl_process_rate_headers cs h).api_rate_limit
        = match h.limit with | some v => some v | none => cs.api_rate_limit) ∧
    ((ctrl_process_rate_headers cs h).api_rate_remaining
        = match h.remaining with | some v => some v | none => cs.api_rate_remaining) ∧
    ((ctrl_process_rate_headers cs h).api_rate_reset
        = match h.reset with | some v => some v | none => cs.api_rate_reset) ∧
    ((sht_process_rate_headers ss h).api_rate_limit
        = match h.limit with | some v => some v | none => ss.api_rate_limit) ∧
    ((sht_process_rate_headers ss h).api_rate_remaining
        = match h.remaining with | some v => some v | none => ss.api_rate_remaining) ∧
    ((sht_process_rate_headers ss h).api_rate_reset
        = match h.reset with | some v => some v | none => ss.api_rate_reset) := by
  obtain ⟨l, r, t⟩ := h
  cases l <;> cases r <;> cases t <;>
    simp [ctrl_process_rate_headers, sht_process_rate_headers]

/-- C10: the controller's stop transition removes exactly the stopped
zone's entries — the lookup of every other key in `running_zones` and
`_pending_start` is unchanged (even though the outbound request is the
device-wide `device/stop_water` call keyed by `device_id`). -/
theorem c10_stop_frame (s : CtrlState) (z w : String) :
    (mlookup (ctrl_stop_zone_local s z).running_zones w
        = if w = z then none else mlookup s.running_zones w) ∧
    (mlookup (ctrl_stop_zone_local s z).pending_start w
        = if w = z then none else mlookup s.pending_start w) := by
  by_cases hw : w = z
  · subst hw; simp [ctrl_stop_zone_local]
  · simp [ctrl_stop_zone_local, hw, mlookup_merase_ne]

/-- The valve of the C1 counterexample: connected, no last watering
action. -/
def c1CexValve : Valve :=
  { id := "v1", connected := true, duration := none, defaultRuntime := none
    lastWateringAction := { start := none, durationSeconds := none, programId := none } }

/-- The poll inputs of the C1 counterexample: base station connected, the
one valve listed, no programs. -/
def c1CexInputs : ShtInputs :=
  { baseStation := some true, valves := some [c1CexValve]
    schedules := [], valve_run_summaries := [] }

/-- The C1 counterexample state: poll at t = 900, stop `v1` at t = 1000,
start `v1` at t = 1010 (pending window expires at 1070, and the start puts
`v1` into `running_zones`).  Evaluated at t = 2000. -/
def c1CexState : ShtState :=
  sht_start_zone_local
    (sht_stop_zone_local (sht_update_local (sht_init "base1" "OFFLINE") c1CexInputs 900)
      "v1" 1000)
    "v1" 600 1010

/-- C1 (counterexample): at the reachable state above, `v1` is still in
`running_zones` (so the spec's invariant says "on"), but the smart-hose-
timer `is_zone_optimistically_on` returns false because a force-stop
record exists and the pending window has expired — the claimed iff fails. -/
theorem c1_counterexample :
    ShtReachable c1CexState ∧
    mmem c1CexState.running_zones "v1" = true ∧
    sht_is_zone_optimistically_on c1CexState 2000 "v1" = false ∧
    spec_is_running_sht c1CexState 2000 "v1" = true := by
  refine ⟨?_, by decide, by decide, by decide⟩
  exact .startZone _ _ _ _ (.stopZone _ _ _ (.update _ _ _ (.init _ _)))

/-- C1 (amended): the controller handler satisfies the invariant exactly
(on iff in `running_zones` or a non-expired pending start; a "stop"
deletes the pending intent, so a surviving intent is never superseded).
The smart-hose-timer handler satisfies it only when the zone has no
force-stop record; with a force-stop record the result is exactly "has a
non-expired pending start" and membership in `running_zones` is ignored. -/
theorem c1_amended (cs : CtrlState) (ss : ShtState) (now : Nat) (z : String) :
    ctrl_is_zone_optimistically_on cs now z =
      (mmem cs.running_zones z || spec_pending_valid cs.pending_start now z) ∧
    sht_is_zone_optimistically_on ss now z =
      (if (mlookup ss.force_stopped z).isSome then
        spec_pending_valid ss.pending_start now z
      else
        mmem ss.running_zones z || spec_pending_valid ss.pending_start now z) := by
  constructor
  · unfold ctrl_is_zone_optimistically_on spec_pending_valid
    cases h : mlookup cs.pending_start z with
    | none => simp [h]
    | some e => simp [h]
  · unfold sht_is_zone_optimistically_on spec_pending_valid
    cases hf : mlookup ss.force_stopped z with
    | none => simp [hf]
    | some t0 =>
      cases hp : mlookup ss.pending_start z with
      | none => simp [hf, hp]
      | some e =>
        by_cases he : e > now
        · simp [hf, hp, he]
        · simp [hf, hp, he]

/-- The controller state of the C2 counterexample: one running zone and
one running schedule before the failing poll. -/
def c2PrevState : CtrlState :=
  { ctrl_init "dev1" "ONLINE" with
    running_zones := [("z1", ⟨600, none, none, none, none, none⟩)]
    running_schedules := [("s1", CtrlSchedEntry.optimistic)] }

/-- C2 (counterexample): when both requests of a controller poll fail
(`_make_request` returns `None`), `async_update` does not retain the
previous `running_zones` / `running_schedules` — both are reset to empty,
contradicting the claimed stale-but-available behaviour. -/
theorem c2_counterexample :
    mmem c2PrevState.running_zones "z1" = true ∧
    mmem c2PrevState.running_schedules "s1" = true ∧
    (ctrl_async_update c2PrevState 1000 none none).running_zones = [] ∧
    (ctrl_async_update c2PrevState 1000 none none).running_schedules = [] := by
  refine ⟨by decide, by decide, by decide, by decide⟩

/-- C2 (amended): a request-level failure does not abort the cycle (the
errors are swallowed inside `_make_request`; only an exception thrown in
the update body itself is logged and re-raised), but the controller
rebuilds its running sets from the empty response: after a poll whose
requests both failed (and with no rate-limit skip in force), the running
sets are empty, not retained. -/
theorem c2_amended (s : CtrlState) (now : Nat)
    (h : s.api_rate_remaining = none) :
    (ctrl_async_update s now none none).running_zones = [] ∧
    (ctrl_async_update s now none none).running_schedules = [] := by
  unfold ctrl_async_update
  rw [h]
  exact ⟨rfl, rfl⟩

/-- Witness for `c2_amended` on a freshly initialised handler. -/
theorem c2_amended_witness :
    (ctrl_init "dev1" "ONLINE").api_rate_remaining = none ∧
    ((ctrl_async_update (ctrl_init "dev1" "ONLINE") 0 none none).running_zones = [] ∧
     (ctrl_async_update (ctrl_init "dev1" "ONLINE") 0 none none).running_schedules = []) :=
  ⟨rfl, c2_amended (ctrl_init "dev1" "ONLINE") 0 rfl⟩

/-- Scenario B state: a clean handler whose backend reports one valve Z1
with last watering action start = T, duration = 600 s. -/
def c4State (T : Nat) : ShtState :=
  { sht_init "base1" "ONLINE" with
    zones := [{ id := "Z1", connected := true, duration := none, defaultRuntime := none
                lastWateringAction :=
                  { start := some T, durationSeconds := some 600, programId := none } }] }

/-- C4: polling at T + 650 — past the effective end T + 600 plus the 30 s
grace buffer — leaves Z1 out of `running_zones` and records the completion
at the computed end time T + 600, not at the poll time T + 650. -/
theorem c4_scenario_b (T : Nat) :
    mlookup (sht_reconcile (c4State T) (T + 650)).running_zones "Z1" = none ∧
    mlookup (sht_reconcile (c4State T) (T + 650)).last_watering_completed "Z1"
      = some (T + 600) := by
  have h1 : ¬ (T ≤ T + 650 ∧ T + 650 ≤ T + 600 + 30) := by omega
  have h2 : T + 600 + 30 < T + 650 := by omega
  constructor <;>
    simp [c4State, sht_init, sht_reconcile, processValve, processValveCore, lwcUpdate,
      mergePending, completionPass, completionStep, cleanupExpected, mkeys, mmem,
      sht_attribution, computeRunningSchedules, minsert, merase, mlookup, h1, h2]

/-- The C9 counterexample state: a freshly initialised controller after a
successful `async_start_schedule("p1")` at t = 1000. -/
def c9CexState : CtrlState :=
  ctrl_start_schedule_local (ctrl_init "dev1" "ONLINE") "p1" 1000

/-- C9 (counterexample): the controller's `async_start_schedule` asserts an
optimistic `running_schedules` entry while `running_zones` is empty — a
RunningScheduleEntry asserted independently of any RunningZoneEntry, at a
reachable state, contradicting the claimed iff. -/
theorem c9_counterexample :
    CtrlReachable c9CexState ∧
    mmem c9CexState.running_schedules "p1" = true ∧
    c9CexState.running_zones = [] := by
  refine ⟨?_, by decide, by decide⟩
  exact .startSchedule _ _ _ (.init _ _)

theorem crsStep_lookup_ne (running : List (String × RunEntry))
    (vmap : List (String × String)) (acc : List (String × Nat)) (prog : Program)
    {q : String} (h : q ≠ prog.id) :
    mlookup (crsStep running vmap acc prog) q = mlookup acc q := by
  unfold crsStep
  by_cases hemp : (attributedRunningValves running vmap prog).isEmpty
  · simp [hemp]
  · simp only [hemp]
    simp [mlookup_minsert_ne _ _ h]

theorem crs_foldl_lookup_not_mem (running : List (String × RunEntry))
    (vmap : List (String × String)) :
    ∀ (l : List Program) (acc : List (String × Nat)) (q : String),
      (∀ p ∈ l, p.id ≠ q) →
      mlookup (l.foldl (crsStep running vmap) acc) q = mlookup acc q := by
  intro l
  induction l with
  | nil => intro acc q _; rfl
  | cons p t ih =>
    intro acc q hq
    rw [List.foldl_cons, ih _ q (fun p' hp' => hq p' (List.mem_cons_of_mem _ hp'))]
    exact crsStep_lookup_ne _ _ _ _ (hq p (List.mem_cons_self _ _)).symm

theorem crs_foldl_lookup_mem (running : List (String × RunEntry))
    (vmap : List (String × String)) :
    ∀ (l : List Program) (acc : List (String × Nat)) (prog : Program),
      prog ∈ l → (l.map Program.id).Nodup →
      mlookup (l.foldl (crsStep running vmap) acc) prog.id =
        (if (attributedRunningValves running vmap prog).isEmpty then
          mlookup acc prog.id
        else
          some (maxAttributedRemaining running
            (attributedRunningValves running vmap prog))) := by
  intro l
  induction l with
  | nil => intro acc prog h; cases h
  | cons p t ih =>
    intro acc prog hmem hnd
    rw [List.map_cons, List.nodup_cons] at hnd
    obtain ⟨hpid, hndt⟩ := hnd
    rcases List.mem_cons.mp hmem with heq | hmt
    · subst heq
      rw [List.foldl_cons]
      have hnot : ∀ p' ∈ t, p'.id ≠ prog.id := by
        intro p' hp' hcontra
        exact hpid (hcontra ▸ List.mem_map_of_mem Program.id hp')
      rw [crs_foldl_lookup_not_mem running vmap t _ _ hnot]
      by_cases hemp : (attributedRunningValves running vmap prog).isEmpty
      · simp [crsStep, hemp]
      · simp [crsStep, hemp]
    · rw [List.foldl_cons]
      have hne : prog.id ≠ p.id := by
        intro hcontra
        exact hpid (hcontra ▸ List.mem_map_of_mem Program.id hmt)
      rw [ih _ prog hmt hndt]
      by_cases hemp : (attributedRunningValves running vmap prog).isEmpty
      · simp [hemp, crsStep_lookup_ne running vmap acc p hne]
      · simp [hemp]

theorem attributed_nonempty_iff (running : List (String × RunEntry))
    (vmap : List (String × String)) (prog : Program) :
    (attributedRunningValves running vmap prog).isEmpty = false ↔
      ∃ v ∈ prog.valveIds, mmem running v = true ∧
        mlookup vmap v = some prog.id := by
  rw [List.isEmpty_eq_false]
  constructor
  · intro hne
    obtain ⟨v, hv⟩ := List.exists_mem_of_ne_nil _ hne
    rw [attributedRunningValves, List.mem_filter] at hv
    obtain ⟨hmemIds, hpred⟩ := hv
    rw [Bool.and_eq_true, decide_eq_true_eq] at hpred
    exact ⟨v, hmemIds, hpred.1, hpred.2⟩
  · rintro ⟨v, hmemIds, hrun, hmap⟩ hnil
    have : v ∈ attributedRunningValves running vmap prog := by
      rw [attributedRunningValves, List.mem_filter]
      exact ⟨hmemIds, by rw [Bool.and_eq_true, decide_eq_true_eq]; exact ⟨hrun, hmap⟩⟩
    rw [hnil] at this
    cases this

/-- C9 (amended): for the smart-hose-timer reconciler the claim holds —
after a poll, a program (with programs' ids distinct) appears in
`running_schedules` iff at least one of its member valves is in
`running_zones` and attributed to it, and its entry's remaining time is
the maximum remaining among those valves; but the controller's
`async_start_schedule` asserts an optimistic RunningScheduleEntry with no
running zone (see the counterexample). -/
theorem c9_amended (s : ShtState) (now : Nat) (prog : Program)
    (hmem : prog ∈ s.schedules)
    (hnd : (s.schedules.map Program.id).Nodup) :
    (mmem (sht_reconcile s now).running_schedules prog.id = true ↔
      ∃ v ∈ prog.valveIds,
        mmem (sht_reconcile s now).running_zones v = true ∧
        mlookup (sht_attribution s.schedules s.valve_run_summaries
            (sht_reconcile s now).running_zones) v = some prog.id) ∧
    ∀ r, mlookup (sht_reconcile s now).running_schedules prog.id = some r →
      r = maxAttributedRemaining (sht_reconcile s now).running_zones
            (attributedRunningValves (sht_reconcile s now).running_zones
              (sht_attribution s.schedules s.valve_run_summaries
                (sht_reconcile s now).running_zones) prog) := by
  have hrs : (sht_reconcile s now).running_schedules =
      s.schedules.foldl
        (crsStep (sht_reconcile s now).running_zones
          (sht_attribution s.schedules s.valve_run_summaries
            (sht_reconcile s now).running_zones))
        [] := rfl
  rw [hrs]
  constructor
  · rw [mmem_eq_true_iff, crs_foldl_lookup_mem _ _ s.schedules [] prog hmem hnd,
      ← attributed_nonempty_iff]
    cases hemp : (attributedRunningValves (sht_reconcile s now).running_zones
        (sht_attribution s.schedules s.valve_run_summaries
          (sht_reconcile s now).running_zones) prog).isEmpty <;>
      simp [hemp]
  · intro r hr
    rw [crs_foldl_lookup_mem _ _ s.schedules [] prog hmem hnd] at hr
    cases hemp : (attributedRunningValves (sht_reconcile s now).running_zones
        (sht_attribution s.schedules s.valve_run_summaries
          (sht_reconcile s now).running_zones) prog).isEmpty
    · simp [hemp] at hr
      exact hr.symm
    · simp [hemp, mlookup] at hr

/-- The program of the C9 witness. -/
def c9WitnessProgram : Program :=
  { id := "P1", name := "Morning", valveIds := ["v1"], plannedRuns := [], enabled := true }

/-- The C9 witness state: one program over one valve, the valve reported
watering (start = 100, duration = 600) with a direct `programId`. -/
def c9WitnessState : ShtState :=
  { sht_init "base1" "ONLINE" with
    schedules := [c9WitnessProgram]
    zones := [{ id := "v1", connected := true, duration := none, defaultRuntime := none
                lastWateringAction :=
                  { start := some 100, durationSeconds := some 600
                    programId := some "P1" } }] }

/-- Witness for `c9_amended` on the concrete one-program state, polled at
t = 200 while the valve is running. -/
theorem c9_amended_witness :
    c9WitnessProgram ∈ c9WitnessState.schedules ∧
    (c9WitnessState.schedules.map Program.id).Nodup ∧
    ((mmem (sht_reconcile c9WitnessState 200).running_schedules c9WitnessProgram.id = true ↔
      ∃ v ∈ c9WitnessProgram.valveIds,
        mmem (sht_reconcile c9WitnessState 200).running_zones v = true ∧
        mlookup (sht_attribution c9WitnessState.schedules c9WitnessState.valve_run_summaries
            (sht_reconcile c9WitnessState 200).running_zones) v = some c9WitnessProgram.id) ∧
    ∀ r, mlookup (sht_reconcile c9WitnessState 200).running_schedules c9WitnessProgram.id
        = some r →
      r = maxAttributedRemaining (sht_reconcile c9WitnessState 200).running_zones
            (attributedRunningValves (sht_reconcile c9WitnessState 200).running_zones
              (sht_attribution c9WitnessState.schedules c9WitnessState.valve_run_summaries
                (sht_reconcile c9WitnessState 200).running_zones) c9WitnessProgram)) :=
  ⟨by decide, by decide,
    c9_amended c9WitnessState 200 c9WitnessProgram (by decide) (by decide)⟩

/-- Relation between a zone's stored completion time before and after one
poll: either unchanged, or replaced by a strictly larger timestamp. -/
def lwcStep (old new : Option Nat) : Prop :=
  new = old ∨ ∃ t2, new = some t2 ∧ ∀ t1, old = some t1 → t1 < t2

theorem lwcStep_refl (o : Option Nat) : lwcStep o o := Or.inl rfl

theorem lwcStep_trans {a b c : Option Nat} (h1 : lwcStep a b) (h2 : lwcStep b c) :
    lwcStep a c := by
  rcases h1 with h1 | ⟨t2, hb, hgt⟩
  · rcases h2 with h2 | ⟨t3, hc, hgt2⟩
    · exact Or.inl (h2.trans h1)
    · exact Or.inr ⟨t3, hc, fun t1 ha => hgt2 t1 (h1.trans ha)⟩
  · rcases h2 with h2 | ⟨t3, hc, hgt2⟩
    · exact Or.inr ⟨t2, h2.trans hb, hgt⟩
    · exact Or.inr ⟨t3, hc, fun t1 ha => lt_trans (hgt t1 ha) (hgt2 t2 hb)⟩

theorem lwcStep_lwcUpdate (lwc : List (String × Nat)) (k : String) (e : Nat)
    (z : String) : lwcStep (mlookup lwc z) (mlookup (lwcUpdate lwc k e) z) := by
  by_cases hz : z = k
  · subst hz
    unfold lwcUpdate
    cases h : mlookup lwc z with
    | none =>
      exact Or.inr ⟨e, by simp, fun t1 ht => by cases ht⟩
    | some lc =>
      by_cases hlt : lc < e
      · exact Or.inr ⟨e, by simp [hlt], fun t1 ht => (Option.some.inj ht) ▸ hlt⟩
      · exact Or.inl (by simp [hlt, h])
  · left
    unfold lwcUpdate
    cases h : mlookup lwc k with
    | none => exact mlookup_minsert_ne _ _ hz
    | some lc =>
      by_cases hlt : lc < e
      · simp [hlt, mlookup_minsert_ne _ _ hz]
      · simp [hlt]

theorem processValveCore_lwc (now : Nat) (acc : ValveAcc) (vid : String)
    (st d endT endBuf : Nat) (la : LastAction) (z : String) :
    lwcStep (mlookup acc.lwc z)
      (mlookup (processValveCore now acc vid st d endT endBuf la).lwc z) := by
  unfold processValveCore
  split
  · exact lwcStep_refl _
  · split
    · exact lwcStep_refl _
    · split
      · exact lwcStep_lwcUpdate _ _ _ _
      · exact lwcStep_refl _

theorem processValve_eq_some (now : Nat) (acc : ValveAcc) (vid : String)
    (vconn : Bool) (vdur vdr : Option Nat) (st d : Nat) (lap : Option String) :
    processValve now acc ⟨vid, vconn, vdur, vdr, ⟨some st, some d, lap⟩⟩ =
      (if d = 0 then acc
       else
        match mlookup acc.force_stopped vid with
        | some fstop =>
          if now - fstop < 30 then acc
          else
            processValveCore now { acc with force_stopped := merase acc.force_stopped vid }
              vid st d (st + d) (st + d + 30) ⟨some st, some d, lap⟩
        | none =>
            processValveCore now acc vid st d (st + d) (st + d + 30)
              ⟨some st, some d, lap⟩) := rfl

theorem processValve_lwc (now : Nat) (acc : ValveAcc) (v : Valve) (z : String) :
    lwcStep (mlookup acc.lwc z) (mlookup (processValve now acc v).lwc z) := by
  obtain ⟨vid, vconn, vdur, vdr, las, lad, lap⟩ := v
  cases las with
  | none => exact lwcStep_refl _
  | some st =>
    cases lad with
    | none => exact lwcStep_refl _
    | some d =>
      rw [processValve_eq_some]
      by_cases hd0 : d = 0
      · rw [if_pos hd0]
        exact lwcStep_refl _
      · rw [if_neg hd0]
        split
        · split
          · exact lwcStep_refl _
          · exact processValveCore_lwc now _ vid st d (st + d) (st + d + 30)
              ⟨some st, some d, lap⟩ z
        · exact processValveCore_lwc now acc vid st d (st + d) (st + d + 30)
            ⟨some st, some d, lap⟩ z

theorem completionStep_lwc (newRunning : List (String × RunEntry))
    (acc : List (String × Nat) × List (String × Nat)) (vid z : String) :
    lwcStep (mlookup acc.1 z) (mlookup (completionStep newRunning acc vid).1 z) := by
  unfold completionStep
  split
  · exact lwcStep_refl _
  · cases h : mlookup acc.2 vid with
    | some e => exact lwcStep_lwcUpdate _ _ _ _
    | none => exact lwcStep_refl _

theorem lwcStep_foldl {A B : Type} (step : A → B → A) (g : A → Option Nat)
    (hstep : ∀ a b, lwcStep (g a) (g (step a b))) :
    ∀ (l : List B) (acc : A), lwcStep (g acc) (g (l.foldl step acc)) := by
  intro l
  induction l with
  | nil => intro acc; exact lwcStep_refl _
  | cons b t ih => intro acc; exact lwcStep_trans (hstep acc b) (ih (step acc b))

theorem c3_reconcile_mono (s : ShtState) (now : Nat) (z : String) :
    lwcStep (mlookup s.last_watering_completed z)
      (mlookup (sht_reconcile s now).last_watering_completed z) := by
  have hrw : (sht_reconcile s now).last_watering_completed =
      ((mkeys s.running_zones).foldl
        (completionStep (mergePending now s.running_zones s.pending_start
          (s.zones.foldl (processValve now)
            ⟨[], s.force_stopped, s.last_watering_completed, s.expected_end_times⟩).running))
        ((s.zones.foldl (processValve now)
            ⟨[], s.force_stopped, s.last_watering_completed, s.expected_end_times⟩).lwc,
         (s.zones.foldl (processValve now)
            ⟨[], s.force_stopped, s.last_watering_completed, s.expected_end_times⟩).expected)).1 :=
    rfl
  rw [hrw]
  have h1 := lwcStep_foldl (processValve now)
    (fun a => mlookup a.lwc z) (fun a b => processValve_lwc now a b z)
    s.zones ⟨[], s.force_stopped, s.last_watering_completed, s.expected_end_times⟩
  have h2 := lwcStep_foldl
    (completionStep (mergePending now s.running_zones s.pending_start
      (s.zones.foldl (processValve now)
        ⟨[], s.force_stopped, s.last_watering_completed, s.expected_end_times⟩).running))
    (fun a => mlookup a.1 z) (fun a b => completionStep_lwc _ a b z)
    (mkeys s.running_zones)
    ((s.zones.foldl (processValve now)
        ⟨[], s.force_stopped, s.last_watering_completed, s.expected_end_times⟩).lwc,
     (s.zones.foldl (processValve now)
        ⟨[], s.force_stopped, s.last_watering_completed, s.expected_end_times⟩).expected)
  exact lwcStep_trans h1 h2

/-- C3: across one poll cycle (`async_update`), a zone's recorded
last-watering-completion timestamp is either unchanged or replaced by a
strictly greater one — both completion-recording sites (lines 898-899 and
930-931) are guarded by "absent or strictly smaller". -/
theorem c3_completion_monotone (s : ShtState) (inp : ShtInputs) (now : Nat)
    (z : String) :
    lwcStep (mlookup s.last_watering_completed z)
      (mlookup (sht_update_local s inp now).last_watering_completed z) := by
  have hpre : (sht_apply_inputs s inp).last_watering_completed
      = s.last_watering_completed := by
    unfold sht_apply_inputs
    cases inp.baseStation <;> rfl
  rw [← hpre]
  exact c3_reconcile_mono (sht_apply_inputs s inp) now z

/-- Witness for `c3_completion_monotone` on the scenario-B state polled at
t = 750 (concrete instance of the monotone step). -/
theorem c3_completion_monotone_witness :
    lwcStep (mlookup (c4State 100).last_watering_completed "Z1")
      (mlookup (sht_update_local (c4State 100)
          ⟨some true, some (c4State 100).zones, [], []⟩ 750).last_watering_completed "Z1") :=
  c3_completion_monotone (c4State 100) ⟨some true, some (c4State 100).zones, [], []⟩ 750 "Z1"
